import Mathlib

/-!
Shallow embedding of the appointment-scheduling and encounter-lifecycle core
of a hospital EMR backend (Go, GORM over a relational store).

Conventions of the embedding:
* Instants (`time.Time`) are integers, in minutes; a calendar day is the
  half-open interval `[dayStart, dayStart + 1440)`; 08:00 is `dayStart + 480`,
  17:00 is `dayStart + 1020`.
* UUIDs are natural numbers.
* The relational store is a record of lists; `First(&x).Where("id = ?")`
  becomes `List.find?`, a filtered `Count` becomes `List.countP`,
  `Save` (update by primary key) becomes a `List.map` replacing the row
  whose id matches.
* NATS publishes are collected in the returned event list instead of being
  fire-and-forget; the Go publish has no effect on the store.
* `time.Now()` is an explicit `now : Int` argument at each call site that
  reads the clock.
-/

namespace EMR

/-- Appointment statuses, from `models.AppointmentStatus`. -/
inductive AppointmentStatus
  | scheduled
  | confirmed
  | checkedIn
  | inProgress
  | completed
  | cancelled
  | noShow
  deriving DecidableEq, Repr

/-- Encounter statuses, from `models.EncounterStatus`. -/
inductive EncounterStatus
  | scheduled
  | inProgress
  | completed
  | cancelled
  deriving DecidableEq, Repr

/-- An appointment row (`models.Appointment`); fields not read or written by
the scheduling service operations under study are omitted. -/
structure Appointment where
  id : Nat
  patientId : Nat
  providerId : Nat
  status : AppointmentStatus
  startTime : Int
  endTime : Int
  duration : Int
  cancelledAt : Option Int := none
  cancellationReason : String := ""
  checkedInAt : Option Int := none
  createdBy : Nat := 0
  updatedBy : Nat := 0
  deriving DecidableEq, Repr

/-- An encounter row (`models.Encounter`); child collections and free-text
fields not touched by `UpdateEncounter` are omitted. -/
structure Encounter where
  id : Nat
  patientId : Nat
  providerId : Nat
  status : EncounterStatus
  admissionDate : Int
  dischargeDate : Option Int := none
  createdBy : Nat := 0
  updatedBy : Nat := 0
  deriving DecidableEq, Repr

/-- A derived availability slot (`scheduling.TimeSlot`). -/
structure TimeSlot where
  startTime : Int
  endTime : Int
  available : Bool
  deriving DecidableEq, Repr

/-- The relational store: patient and user (provider) directories are sets of
ids, plus the appointment and encounter tables. -/
structure DB where
  patients : List Nat
  users : List Nat
  appointments : List Appointment
  encounters : List Encounter
  deriving DecidableEq, Repr

/-- The typed errors the service layer returns (`internal/common/errors`). -/
inductive SchedError
  | patientNotFound
  | userNotFound
  | appointmentNotFound
  | appointmentConflict
  | encounterNotFound
  | databaseError
  deriving DecidableEq, Repr

/-- Domain events published to NATS by the operations under study. -/
inductive Event
  | appointmentBooked (apptId patientId providerId : Nat) (startTime : Int)
      (createdBy : Nat)
  | appointmentCancelled (apptId patientId providerId : Nat) (reason : String)
      (cancelledBy : Nat)
  | encounterUpdated (encId : Nat) (status : EncounterStatus) (updatedBy : Nat)
  deriving DecidableEq, Repr

/-- `scheduling.CreateAppointmentRequest`; free-text fields that are copied
verbatim are collapsed into the ones the claims mention. -/
structure CreateAppointmentRequest where
  patientId : Nat
  providerId : Nat
  startTime : Int
  duration : Int
  reasonForVisit : String := ""
  notes : String := ""
  deriving DecidableEq, Repr

/-- `Service.isProviderAvailable`: counts non-cancelled appointments of the
provider satisfying `start_time < endTime AND end_time > startTime`; the
provider is available iff the count is zero. -/
def isProviderAvailable (appts : List Appointment) (providerId : Nat)
    (startTime endTime : Int) : Bool :=
  appts.countP (fun a =>
    a.providerId == providerId
      && !(a.status == AppointmentStatus.cancelled)
      && decide (a.startTime < endTime)
      && decide (a.endTime > startTime)) == 0

/-- `Service.isProviderAvailableExcept`: as `isProviderAvailable` but also
requiring `id != exceptID` in the SQL filter. -/
def isProviderAvailableExcept (appts : List Appointment) (providerId : Nat)
    (startTime endTime : Int) (exceptId : Nat) : Bool :=
  appts.countP (fun a =>
    a.providerId == providerId
      && !(a.id == exceptId)
      && !(a.status == AppointmentStatus.cancelled)
      && decide (a.startTime < endTime)
      && decide (a.endTime > startTime)) == 0

/-- The appointment row built by `CreateAppointment` before `db.Create`:
status is Scheduled and `endTime = startTime + duration` (minutes). -/
def newAppointment (req : CreateAppointmentRequest) (newId createdBy : Nat) :
    Appointment :=
  { id := newId
    patientId := req.patientId
    providerId := req.providerId
    status := AppointmentStatus.scheduled
    startTime := req.startTime
    endTime := req.startTime + req.duration
    duration := req.duration
    createdBy := createdBy
    updatedBy := createdBy }

/-- `gorm` `Save`: replace the row whose primary key matches `a.id`. -/
def saveAppointment (appts : List Appointment) (a : Appointment) :
    List Appointment :=
  appts.map (fun x => if x.id == a.id then a else x)

/-- `Service.CreateAppointment`: verify patient, verify provider, check
availability for `[start, start + duration)`, insert, publish booked event.
`newId` stands for the generated row id. -/
def CreateAppointment (db : DB) (req : CreateAppointmentRequest)
    (newId createdBy : Nat) :
    Except SchedError (DB × Appointment × List Event) :=
  if !(db.patients.contains req.patientId) then
    .error SchedError.patientNotFound
  else if !(db.users.contains req.providerId) then
    .error SchedError.userNotFound
  else
    let endTime := req.startTime + req.duration
    if !(isProviderAvailable db.appointments req.providerId req.startTime
        endTime) then
      .error SchedError.appointmentConflict
    else
      let appt := newAppointment req newId createdBy
      .ok ({ db with appointments := db.appointments ++ [appt] }, appt,
        [Event.appointmentBooked newId req.patientId req.providerId
          req.startTime createdBy])

/-- `Service.UpdateAppointment`: load the row, re-run the availability check
excluding the row itself, overwrite the mutable fields, save. Publishes no
event. -/
def UpdateAppointment (db : DB) (id : Nat) (req : CreateAppointmentRequest)
    (updatedBy : Nat) :
    Except SchedError (DB × Appointment × List Event) :=
  match db.appointments.find? (fun a => a.id == id) with
  | none => .error SchedError.appointmentNotFound
  | some appt =>
    let endTime := req.startTime + req.duration
    if !(isProviderAvailableExcept db.appointments req.providerId
        req.startTime endTime id) then
      .error SchedError.appointmentConflict
    else
      let updated := { appt with
        patientId := req.patientId
        providerId := req.providerId
        startTime := req.startTime
        endTime := endTime
        duration := req.duration
        updatedBy := updatedBy }
      .ok ({ db with appointments := saveAppointment db.appointments updated },
        updated, [])

/-- `Service.CancelAppointment`: load the row and, with no check of the
current status, set status=Cancelled, cancelled-at=now, the caller's reason
and updater, save, and publish the cancelled event. -/
def CancelAppointment (db : DB) (id : Nat) (reason : String)
    (cancelledBy : Nat) (now : Int) :
    Except SchedError (DB × List Event) :=
  match db.appointments.find? (fun a => a.id == id) with
  | none => .error SchedError.appointmentNotFound
  | some appt =>
    let updated := { appt with
      status := AppointmentStatus.cancelled
      cancelledAt := some now
      cancellationReason := reason
      updatedBy := cancelledBy }
    .ok ({ db with appointments := saveAppointment db.appointments updated },
      [Event.appointmentCancelled appt.id appt.patientId appt.providerId
        reason cancelledBy])

/-- `Service.CheckInAppointment`: load the row and, with no check of the
current status, set status=CheckedIn and checked-in-at=now, save. -/
def CheckInAppointment (db : DB) (id : Nat) (now : Int) :
    Except SchedError (DB × List Event) :=
  match db.appointments.find? (fun a => a.id == id) with
  | none => .error SchedError.appointmentNotFound
  | some appt =>
    let updated := { appt with
      status := AppointmentStatus.checkedIn
      checkedInAt := some now }
    .ok ({ db with appointments := saveAppointment db.appointments updated },
      [])

/-- The slot-generation loop of `GetProviderAvailability`: advance from the
work-window start in 30-minute steps while before the window end; a slot is
available unless some fetched appointment satisfies
`currentSlot < appt.EndTime && slotEnd > appt.StartTime`. -/
def generateSlots (appts : List Appointment) (currentSlot workEnd : Int) :
    List TimeSlot :=
  if h : currentSlot < workEnd then
    let slotEnd := currentSlot + 30
    let isAvailable := !(appts.any (fun a =>
      decide (currentSlot < a.endTime) && decide (slotEnd > a.startTime)))
    { startTime := currentSlot, endTime := slotEnd, available := isAvailable }
      :: generateSlots appts slotEnd workEnd
  else []
  termination_by (workEnd - currentSlot).toNat
  decreasing_by simp_wf; omega

/-- The appointment fetch of `GetProviderAvailability`: the provider's
non-cancelled appointments whose start falls in `[dayStart, dayStart + 24h)`.
The Go query orders the fetched rows by start time; the order does not
affect the computed slots (the inner check is an existential over the
fetched rows), so the filter order is kept. -/
def fetchDayAppointments (appts : List Appointment) (providerId : Nat)
    (dayStart : Int) : List Appointment :=
  appts.filter (fun a =>
    a.providerId == providerId
      && decide (dayStart ≤ a.startTime)
      && decide (a.startTime < dayStart + 1440)
      && !(a.status == AppointmentStatus.cancelled))

/-- `Service.GetProviderAvailability`: verify the provider, fetch the day's
appointments, and generate the 08:00-17:00 slots in 30-minute steps. -/
def GetProviderAvailability (db : DB) (providerId : Nat) (dayStart : Int) :
    Except SchedError (List TimeSlot) :=
  if !(db.users.contains providerId) then
    .error SchedError.userNotFound
  else
    .ok (generateSlots (fetchDayAppointments db.appointments providerId dayStart)
      (dayStart + 480) (dayStart + 1020))

/-- `Service.CreateEncounter` (user service): verify patient and provider,
insert an encounter with status=Scheduled and the caller-supplied admission
date. The created/event bookkeeping not needed by the claims is kept
minimal. -/
def CreateEncounter (db : DB) (patientId providerId : Nat)
    (admissionDate : Int) (newId createdBy : Nat) :
    Except SchedError (DB × Encounter) :=
  if !(db.patients.contains patientId) then
    .error SchedError.patientNotFound
  else if !(db.users.contains providerId) then
    .error SchedError.userNotFound
  else
    let enc : Encounter :=
      { id := newId
        patientId := patientId
        providerId := providerId
        status := EncounterStatus.scheduled
        admissionDate := admissionDate
        createdBy := createdBy
        updatedBy := createdBy }
    .ok ({ db with encounters := db.encounters ++ [enc] }, enc)

/-- `gorm` `Save` on the encounter table. -/
def saveEncounter (encs : List Encounter) (e : Encounter) : List Encounter :=
  encs.map (fun x => if x.id == e.id then e else x)

/-- `Service.UpdateEncounter`: load the encounter, set status and updater,
and if the new status is Completed also set discharge date = now; save and
publish the encounter-updated event. No transition validation. -/
def UpdateEncounter (db : DB) (id : Nat) (status : EncounterStatus)
    (updatedBy : Nat) (now : Int) :
    Except SchedError (DB × Encounter × List Event) :=
  match db.encounters.find? (fun e => e.id == id) with
  | none => .error SchedError.encounterNotFound
  | some enc =>
    let enc1 := { enc with status := status, updatedBy := updatedBy }
    let enc2 :=
      if status == EncounterStatus.completed then
        { enc1 with dischargeDate := some now }
      else enc1
    .ok ({ db with encounters := saveEncounter db.encounters enc2 }, enc2,
      [Event.encounterUpdated enc.id status updatedBy])

/-- Projection: the encounter returned by a successful `UpdateEncounter`. -/
def updatedEncounterOf (r : Except SchedError (DB × Encounter × List Event)) :
    Option Encounter :=
  match r with
  | .ok (_, e, _) => some e
  | .error _ => none

/-- Projection: did the operation succeed? -/
def isOk {α : Type} (r : Except SchedError α) : Bool :=
  match r with
  | .ok _ => true
  | .error _ => false

/-- Projection: the appointment table after a successful operation. -/
def appointmentsOf (r : Except SchedError (DB × List Event)) :
    Option (List Appointment) :=
  match r with
  | .ok (db, _) => some db.appointments
  | .error _ => none

/-- Projection: the events emitted by a successful operation. -/
def eventsOf (r : Except SchedError (DB × List Event)) : Option (List Event) :=
  match r with
  | .ok (_, evs) => some evs
  | .error _ => none

/-- Structural companion of `generateSlots`, counting iterations instead of
testing `currentSlot < workEnd`; `generateSlots_eq_slotsFrom` proves it
produces the same slots when the window is an exact multiple of 30 minutes.
Used so that concrete runs reduce inside the kernel. -/
def slotsFrom (appts : List Appointment) : Int → Nat → List TimeSlot
  | _, 0 => []
  | cur, n + 1 =>
    { startTime := cur, endTime := cur + 30,
      available := !(appts.any (fun a =>
        decide (cur < a.endTime) && decide (cur + 30 > a.startTime))) }
      :: slotsFrom appts (cur + 30) n

end EMR

deriving instance DecidableEq for Except

namespace EMR

theorem generateSlots_eq_slotsFrom (appts : List Appointment) (n : Nat) :
    ∀ cur : Int, generateSlots appts cur (cur + 30 * n) = slotsFrom appts cur n := by
  induction n with
  | zero =>
    intro cur
    rw [generateSlots]
    simp [slotsFrom]
  | succ n ih =>
    intro cur
    rw [generateSlots]
    have hlt : cur < cur + 30 * ((n : Int) + 1) := by
      have : (0:Int) < 30 * ((n : Int) + 1) := by positivity
      omega
    have harg : cur + 30 * ((n : Nat) + 1 : Nat) = (cur + 30) + 30 * n := by
      push_cast
      ring
    simp only [harg] at hlt ⊢
    rw [dif_pos (by omega : cur < cur + 30 + 30 * (n:Int))]
    simp only [slotsFrom]
    congr 1
    exact ih (cur + 30)

/-! Concrete fixtures used by the scenario parts of the claims: one patient
(id 1), one provider (id 2), and a handful of appointment/encounter rows. -/

/-- A store holding just patient 1 and provider 2. -/
def dbP : DB := { patients := [1], users := [2], appointments := [], encounters := [] }

/-- A 30-minute booking request for patient 1 with provider 2 at minute `s`
of the day (09:00 is 540, 09:15 is 555, 09:30 is 570). -/
def reqAt (s : Int) : CreateAppointmentRequest :=
  { patientId := 1, providerId := 2, startTime := s, duration := 30 }

/-- A scheduled 10:00-10:30 appointment (minutes 600-630) for provider 2. -/
def appt1000 : Appointment :=
  { id := 10, patientId := 1, providerId := 2,
    status := AppointmentStatus.scheduled,
    startTime := 600, endTime := 630, duration := 30 }

/-- Store with the single 10:00-10:30 booking. -/
def dbBooked : DB := { dbP with appointments := [appt1000] }

/-- The same appointment in status Completed. -/
def apptCompleted : Appointment :=
  { appt1000 with status := AppointmentStatus.completed }

/-- Store whose only appointment is Completed. -/
def dbCompleted : DB := { dbP with appointments := [apptCompleted] }

/-- The same appointment already Cancelled, with its first cancellation
recorded at minute 640 with reason "first". -/
def apptCancelled : Appointment :=
  { appt1000 with
    status := AppointmentStatus.cancelled
    cancelledAt := some 640
    cancellationReason := "first"
    updatedBy := 7 }

/-- Store whose only appointment is already Cancelled. -/
def dbCancelled : DB := { dbP with appointments := [apptCancelled] }

/-- An encounter admitted at minute 1000 (a future-dated admission). -/
def encFuture : Encounter :=
  { id := 5, patientId := 1, providerId := 2,
    status := EncounterStatus.scheduled, admissionDate := 1000 }

/-- Store holding the future-dated encounter. -/
def dbEncFuture : DB := { dbP with encounters := [encFuture] }

/-- A Completed encounter whose discharge time is already set. -/
def encDone : Encounter :=
  { id := 5, patientId := 1, providerId := 2,
    status := EncounterStatus.completed, admissionDate := 100,
    dischargeDate := some 200 }

/-- Store holding the completed-and-discharged encounter. -/
def dbEncDone : DB := { dbP with encounters := [encDone] }

/-! General lemmas about the embedded operations. -/

theorem isProviderAvailable_false_iff (appts : List Appointment) (pid : Nat)
    (s e : Int) :
    isProviderAvailable appts pid s e = false ↔
      ∃ a ∈ appts, a.providerId = pid
        ∧ a.status ≠ AppointmentStatus.cancelled
        ∧ a.startTime < e ∧ a.endTime > s := by
  simp only [isProviderAvailable, beq_eq_false_iff_ne, ne_eq,
    ← Nat.pos_iff_ne_zero, List.countP_pos_iff, Bool.and_eq_true, beq_iff_eq,
    Bool.not_eq_true', beq_eq_false_iff_ne, decide_eq_true_eq, gt_iff_lt]
  tauto

theorem isProviderAvailableExcept_false_iff (appts : List Appointment)
    (pid : Nat) (s e : Int) (exceptId : Nat) :
    isProviderAvailableExcept appts pid s e exceptId = false ↔
      ∃ a ∈ appts, a.providerId = pid ∧ a.id ≠ exceptId
        ∧ a.status ≠ AppointmentStatus.cancelled
        ∧ a.startTime < e ∧ a.endTime > s := by
  simp only [isProviderAvailableExcept, beq_eq_false_iff_ne, ne_eq,
    ← Nat.pos_iff_ne_zero, List.countP_pos_iff, Bool.and_eq_true, beq_iff_eq,
    Bool.not_eq_true', beq_eq_false_iff_ne, decide_eq_true_eq, gt_iff_lt]
  tauto

theorem getProviderAvailability_ok (db : DB) (pid : Nat) (dayStart : Int)
    (h : db.users.contains pid = true) :
    GetProviderAvailability db pid dayStart =
      .ok (slotsFrom (fetchDayAppointments db.appointments pid dayStart)
        (dayStart + 480) 18) := by
  have h18 : dayStart + 1020 = (dayStart + 480) + 30 * ((18 : Nat) : Int) := by
    push_cast
    ring
  simp only [GetProviderAvailability, h, Bool.not_true, Bool.false_eq_true,
    if_false, h18, generateSlots_eq_slotsFrom]

theorem slotsFrom_length (appts : List Appointment) :
    ∀ (n : Nat) (cur : Int), (slotsFrom appts cur n).length = n := by
  intro n
  induction n with
  | zero => intro cur; simp [slotsFrom]
  | succ n ih => intro cur; simp [slotsFrom, ih]

theorem slotsFrom_get (appts : List Appointment) :
    ∀ (n : Nat) (cur : Int) (i : Nat) (h : i < (slotsFrom appts cur n).length),
      ((slotsFrom appts cur n).get ⟨i, h⟩).startTime = cur + 30 * i
      ∧ ((slotsFrom appts cur n).get ⟨i, h⟩).endTime = cur + 30 * i + 30 := by
  intro n
  induction n with
  | zero => intro cur i h; simp [slotsFrom] at h
  | succ n ih =>
    intro cur i h
    match i with
    | 0 => simp [slotsFrom]
    | i + 1 =>
      have h2 : i < (slotsFrom appts (cur + 30) n).length := by
        simpa [slotsFrom] using h
      have := ih (cur + 30) i h2
      constructor
      · rw [show ((slotsFrom appts cur (n+1)).get ⟨i+1, h⟩) =
            ((slotsFrom appts (cur+30) n).get ⟨i, h2⟩) from rfl, this.1]
        push_cast
        ring
      · rw [show ((slotsFrom appts cur (n+1)).get ⟨i+1, h⟩) =
            ((slotsFrom appts (cur+30) n).get ⟨i, h2⟩) from rfl, this.2]
        push_cast
        ring

theorem slotsFrom_mem_available (appts : List Appointment) :
    ∀ (n : Nat) (cur : Int) (ts : TimeSlot), ts ∈ slotsFrom appts cur n →
      (ts.available = false ↔
        ∃ a ∈ appts, ts.startTime < a.endTime ∧ ts.endTime > a.startTime) := by
  intro n
  induction n with
  | zero => intro cur ts h; simp [slotsFrom] at h
  | succ n ih =>
    intro cur ts h
    rw [slotsFrom, List.mem_cons] at h
    rcases h with h | h
    · subst h
      have hb : ∀ b : Bool, ((!b) = false) = (b = true) := by
        intro b
        cases b <;> simp
      rw [hb, List.any_eq_true]
      simp only [Bool.and_eq_true, decide_eq_true_eq, gt_iff_lt]
    · exact ih (cur + 30) ts h

theorem find?_saveEncounter (id : Nat) (e2 : Encounter) :
    ∀ (l : List Encounter) (enc : Encounter),
      l.find? (fun e => e.id == id) = some enc → e2.id = enc.id →
      (saveEncounter l e2).find? (fun e => e.id == id) = some e2 := by
  intro l
  induction l with
  | nil => intro enc h; simp at h
  | cons a l ih =>
    intro enc h h2
    have hencid : enc.id = id := by
      have := List.find?_some h
      simpa using this
    by_cases hpa : a.id = id
    · rw [List.find?_cons_of_pos _ (by simpa using hpa)] at h
      have ha : a = enc := by simpa using h
      have : (a.id == e2.id) = true := by
        simp [ha, h2]
      simp only [saveEncounter, List.map_cons, this, if_true]
      exact List.find?_cons_of_pos _ (by simp [h2, hencid])
    · rw [List.find?_cons_of_neg _ (by simpa using hpa)] at h
      have hne : (a.id == e2.id) = false := by
        simp only [beq_eq_false_iff_ne, ne_eq]
        rw [h2, hencid]
        exact hpa
      simp only [saveEncounter, List.map_cons, hne, if_false]
      rw [List.find?_cons_of_neg _ (by simpa using hpa)]
      exact ih enc h h2

/-! Claim theorems. -/

/-- C1: the booking conflict guard rejects a proposed `[s, e)` booking if and
only if some non-cancelled appointment of the same provider (with id
different from the excluded id, when an exclusion is given) satisfies
`existing.start < e && existing.end > s`; concretely, after booking provider
2 at 09:00-09:30, a 09:15-09:45 attempt returns the Conflict error and a
back-to-back 09:30-10:00 attempt is admitted. -/
theorem C1_conflict_guard_iff (appts : List Appointment) (pid : Nat)
    (s e : Int) (exceptId : Nat) :
    (isProviderAvailable appts pid s e = false ↔
      ∃ a ∈ appts, a.providerId = pid
        ∧ a.status ≠ AppointmentStatus.cancelled
        ∧ a.startTime < e ∧ a.endTime > s)
    ∧ (isProviderAvailableExcept appts pid s e exceptId = false ↔
      ∃ a ∈ appts, a.providerId = pid ∧ a.id ≠ exceptId
        ∧ a.status ≠ AppointmentStatus.cancelled
        ∧ a.startTime < e ∧ a.endTime > s)
    ∧ (CreateAppointment dbP (reqAt 540) 10 99).map
        (fun r => CreateAppointment r.1 (reqAt 555) 11 99) =
      .ok (.error SchedError.appointmentConflict)
    ∧ (CreateAppointment dbP (reqAt 540) 10 99).map
        (fun r => isOk (CreateAppointment r.1 (reqAt 570) 11 99)) =
      .ok true :=
  ⟨isProviderAvailable_false_iff appts pid s e,
   isProviderAvailableExcept_false_iff appts pid s e exceptId,
   by decide, by decide⟩

/-- C2: the conflict check and the insert are two separate, unsynchronized
store operations, so under the interleaving in which two concurrent create
requests for provider 2 (09:00-09:30 and 09:15-09:45) both run the
availability check against the initial table before either insert, both
checks admit and both rows commit — even though after the first commit the
guard itself would reject the second — leaving two overlapping non-cancelled
appointments for the provider. This refutes the claimed atomicity. -/
theorem C2_check_then_act_race_double_books :
    isProviderAvailable dbP.appointments 2 540 570 = true
    ∧ isProviderAvailable dbP.appointments 2 555 585 = true
    ∧ isProviderAvailable (dbP.appointments ++ [newAppointment (reqAt 540) 10 99])
        2 555 585 = false
    ∧ ((dbP.appointments ++ [newAppointment (reqAt 540) 10 99])
          ++ [newAppointment (reqAt 555) 11 99]).countP
        (fun a => a.providerId == 2
          && !(a.status == AppointmentStatus.cancelled)) = 2
    ∧ (newAppointment (reqAt 540) 10 99).startTime
        < (newAppointment (reqAt 555) 11 99).endTime
    ∧ (newAppointment (reqAt 555) 11 99).startTime
        < (newAppointment (reqAt 540) 10 99).endTime := by
  decide

/-- C3: for every provider in the directory and every day,
GetProviderAvailability returns exactly 18 slots; slot `i` is
`[dayStart+480+30i, dayStart+480+30i+30)`, so the slots are in ascending
order of start time, contiguous, non-overlapping, and exactly partition the
08:00-17:00 working window in 30-minute steps. -/
theorem C3_availability_partitions_window (db : DB) (pid : Nat)
    (dayStart : Int) (h : db.users.contains pid = true) :
    ∃ slots, GetProviderAvailability db pid dayStart = .ok slots
      ∧ slots.length = 18
      ∧ (∀ i (hi : i < slots.length),
          (slots.get ⟨i, hi⟩).startTime = dayStart + 480 + 30 * i
          ∧ (slots.get ⟨i, hi⟩).endTime = dayStart + 480 + 30 * i + 30)
      ∧ (∀ i (hi : i < slots.length) (hi1 : i + 1 < slots.length),
          (slots.get ⟨i, hi⟩).endTime = (slots.get ⟨i + 1, hi1⟩).startTime)
      ∧ (∀ i j (hi : i < slots.length) (hj : j < slots.length), i < j →
          (slots.get ⟨i, hi⟩).startTime < (slots.get ⟨j, hj⟩).startTime)
      ∧ (∀ h0 : 0 < slots.length,
          (slots.get ⟨0, h0⟩).startTime = dayStart + 480)
      ∧ (∀ h17 : 17 < slots.length,
          (slots.get ⟨17, h17⟩).endTime = dayStart + 1020) := by
  refine ⟨_, getProviderAvailability_ok db pid dayStart h,
    ?_, ?_, ?_, ?_, ?_, ?_⟩
  · exact slotsFrom_length _ 18 _
  · intro i hi
    have := slotsFrom_get (fetchDayAppointments db.appointments pid dayStart)
      18 (dayStart + 480) i hi
    exact ⟨by rw [this.1], by rw [this.2]⟩
  · intro i hi hi1
    have h1 := slotsFrom_get (fetchDayAppointments db.appointments pid dayStart)
      18 (dayStart + 480) i hi
    have h2 := slotsFrom_get (fetchDayAppointments db.appointments pid dayStart)
      18 (dayStart + 480) (i + 1) hi1
    rw [h1.2, h2.1]
    push_cast
    ring
  · intro i j hi hj hij
    have h1 := slotsFrom_get (fetchDayAppointments db.appointments pid dayStart)
      18 (dayStart + 480) i hi
    have h2 := slotsFrom_get (fetchDayAppointments db.appointments pid dayStart)
      18 (dayStart + 480) j hj
    rw [h1.1, h2.1]
    have : (i : Int) < (j : Int) := by exact_mod_cast hij
    omega
  · intro h0
    have := slotsFrom_get (fetchDayAppointments db.appointments pid dayStart)
      18 (dayStart + 480) 0 h0
    rw [this.1]
    push_cast
    ring
  · intro h17
    have := slotsFrom_get (fetchDayAppointments db.appointments pid dayStart)
      18 (dayStart + 480) 17 h17
    rw [this.2]
    push_cast
    ring

/-- Witness for C3, at the store holding provider 2 and day start 0. -/
theorem C3_availability_partitions_window_witness :
    dbP.users.contains 2 = true
    ∧ (∃ slots, GetProviderAvailability dbP 2 0 = .ok slots
      ∧ slots.length = 18
      ∧ (∀ i (hi : i < slots.length),
          (slots.get ⟨i, hi⟩).startTime = 0 + 480 + 30 * i
          ∧ (slots.get ⟨i, hi⟩).endTime = 0 + 480 + 30 * i + 30)
      ∧ (∀ i (hi : i < slots.length) (hi1 : i + 1 < slots.length),
          (slots.get ⟨i, hi⟩).endTime = (slots.get ⟨i + 1, hi1⟩).startTime)
      ∧ (∀ i j (hi : i < slots.length) (hj : j < slots.length), i < j →
          (slots.get ⟨i, hi⟩).startTime < (slots.get ⟨j, hj⟩).startTime)
      ∧ (∀ h0 : 0 < slots.length, (slots.get ⟨0, h0⟩).startTime = 0 + 480)
      ∧ (∀ h17 : 17 < slots.length,
          (slots.get ⟨17, h17⟩).endTime = 0 + 1020)) :=
  ⟨by decide, C3_availability_partitions_window dbP 2 0 (by decide)⟩

/-- C4: a returned slot is unavailable iff it intersects at least one
non-cancelled appointment of the provider whose start falls within the day,
under the half-open test `slot.start < appt.end && slot.end > appt.start`;
with the single 10:00-10:30 booking, exactly the 10:00-10:30 slot is
unavailable and the other 17 slots are available. -/
theorem C4_slot_unavailable_iff_overlap (db : DB) (pid : Nat) (dayStart : Int)
    (slots : List TimeSlot)
    (h : GetProviderAvailability db pid dayStart = .ok slots) :
    (∀ ts ∈ slots, (ts.available = false ↔
      ∃ a ∈ db.appointments, a.providerId = pid
        ∧ dayStart ≤ a.startTime ∧ a.startTime < dayStart + 1440
        ∧ a.status ≠ AppointmentStatus.cancelled
        ∧ ts.startTime < a.endTime ∧ ts.endTime > a.startTime))
    ∧ (GetProviderAvailability dbBooked 2 0).map
        (fun ss => (ss.countP (fun s => !s.available),
          ss.filter (fun s => !s.available))) =
      .ok (1, [{ startTime := 600, endTime := 630, available := false }]) := by
  constructor
  · cases hc : db.users.contains pid with
    | false =>
      rw [GetProviderAvailability, hc] at h
      simp at h
    | true =>
      rw [getProviderAvailability_ok db pid dayStart hc] at h
      have hslots : slots = slotsFrom
          (fetchDayAppointments db.appointments pid dayStart)
          (dayStart + 480) 18 := by
        injection h with h2
        exact h2.symm
      subst hslots
      intro ts hts
      rw [slotsFrom_mem_available _ 18 (dayStart + 480) ts hts]
      simp only [fetchDayAppointments, List.mem_filter, Bool.and_eq_true,
        beq_iff_eq, decide_eq_true_eq, Bool.not_eq_true', beq_eq_false_iff_ne,
        ne_eq, gt_iff_lt]
      tauto
  · rw [getProviderAvailability_ok dbBooked 2 0 rfl]
    decide

/-- The concrete slot list for provider 2 on day 0 in the store with the
single 10:00-10:30 booking. -/
def bookedSlots : List TimeSlot :=
  slotsFrom (fetchDayAppointments dbBooked.appointments 2 0) (0 + 480) 18

/-- Witness for C4, at the store with the single 10:00-10:30 booking. -/
theorem C4_slot_unavailable_iff_overlap_witness :
    GetProviderAvailability dbBooked 2 0 = .ok bookedSlots
    ∧ ((∀ ts ∈ bookedSlots, (ts.available = false ↔
        ∃ a ∈ dbBooked.appointments, a.providerId = 2
          ∧ (0:Int) ≤ a.startTime ∧ a.startTime < 0 + 1440
          ∧ a.status ≠ AppointmentStatus.cancelled
          ∧ ts.startTime < a.endTime ∧ ts.endTime > a.startTime))
      ∧ (GetProviderAvailability dbBooked 2 0).map
          (fun ss => (ss.countP (fun s => !s.available),
            ss.filter (fun s => !s.available))) =
        .ok (1, [{ startTime := 600, endTime := 630, available := false }])) :=
  ⟨getProviderAvailability_ok dbBooked 2 0 rfl,
   C4_slot_unavailable_iff_overlap dbBooked 2 0 bookedSlots
     (getProviderAvailability_ok dbBooked 2 0 rfl)⟩

/-- The Completed appointment after `CancelAppointment` runs on it. -/
def apptCompletedThenCancelled : Appointment :=
  { apptCompleted with
    status := AppointmentStatus.cancelled
    cancelledAt := some 700
    cancellationReason := "changed plans"
    updatedBy := 99 }

/-- C5 evidence: `CancelAppointment` never inspects the current status, so
cancelling a Completed appointment is not rejected with a StateConflict
error: the call succeeds, overwrites status with Cancelled, records the
timestamp and reason, and emits the appointment-cancelled event. -/
theorem C5_cancel_completed_not_rejected :
    CancelAppointment dbCompleted 10 "changed plans" 99 700 =
      .ok ({ dbCompleted with appointments := [apptCompletedThenCancelled] },
        [Event.appointmentCancelled 10 1 2 "changed plans" 99])
    ∧ apptCompleted.status = AppointmentStatus.completed := by
  decide

/-- The Completed appointment after `CheckInAppointment` runs on it. -/
def apptCompletedThenCheckedIn : Appointment :=
  { apptCompleted with
    status := AppointmentStatus.checkedIn
    checkedInAt := some 700 }

/-- C6 evidence: `CheckInAppointment` never inspects the current status, so
checking in an appointment that is neither Scheduled nor Confirmed (here:
Completed) does not fail with a state-conflict error: the call succeeds and
sets status=CheckedIn with the checked-in timestamp. -/
theorem C6_checkin_completed_not_rejected :
    CheckInAppointment dbCompleted 10 700 =
      .ok ({ dbCompleted with appointments := [apptCompletedThenCheckedIn] }, [])
    ∧ apptCompleted.status = AppointmentStatus.completed := by
  decide

/-- A booking request whose duration is negative (passes the transport-layer
`binding:"required"`, which only rejects the zero value). -/
def reqNegDuration : CreateAppointmentRequest :=
  { reqAt 540 with duration := -30 }

/-- C8 evidence: the service never validates the interval: creating an
appointment with duration -30 succeeds, persists the row, and the stored
appointment has `end = 510 < 540 = start`, violating the claimed
Validation rejection and the `start < end` invariant. -/
theorem C8_malformed_interval_persisted :
    CreateAppointment dbP reqNegDuration 10 99 =
      .ok ({ dbP with appointments := [newAppointment reqNegDuration 10 99] },
        newAppointment reqNegDuration 10 99,
        [Event.appointmentBooked 10 1 2 540 99])
    ∧ (newAppointment reqNegDuration 10 99).endTime
        < (newAppointment reqNegDuration 10 99).startTime
    ∧ (newAppointment reqNegDuration 10 99).endTime = 510
    ∧ (newAppointment reqNegDuration 10 99).startTime = 540 := by
  decide

/-- The already-cancelled appointment after `CancelAppointment` runs again. -/
def apptRecancelled : Appointment :=
  { apptCancelled with
    cancelledAt := some 650
    cancellationReason := "second"
    updatedBy := 99 }

/-- C9 evidence: cancelling an already-cancelled appointment neither no-ops
nor returns StateConflict: the call succeeds, mutates the row (new
cancelled-at timestamp and reason), and re-emits the appointment-cancelled
event. -/
theorem C9_recancel_reemits_event :
    CancelAppointment dbCancelled 10 "second" 99 650 =
      .ok ({ dbCancelled with appointments := [apptRecancelled] },
        [Event.appointmentCancelled 10 1 2 "second" 99])
    ∧ apptCancelled.status = AppointmentStatus.cancelled
    ∧ apptRecancelled ≠ apptCancelled := by
  decide

/-- The row written by `UpdateEncounter` when the new status is Completed. -/
def completeEncounter (enc : Encounter) (updatedBy : Nat) (now : Int) :
    Encounter :=
  { enc with
    status := EncounterStatus.completed
    updatedBy := updatedBy
    dischargeDate := some now }

/-- The row written by `UpdateEncounter` for a non-Completed new status. -/
def restatusEncounter (enc : Encounter) (status : EncounterStatus)
    (updatedBy : Nat) : Encounter :=
  { enc with
    status := status
    updatedBy := updatedBy }

theorem updateEncounter_completed_eq (db : DB) (id updatedBy : Nat)
    (now : Int) (enc : Encounter)
    (hfind : db.encounters.find? (fun e => e.id == id) = some enc) :
    UpdateEncounter db id EncounterStatus.completed updatedBy now =
      .ok ({ db with encounters :=
          saveEncounter db.encounters (completeEncounter enc updatedBy now) },
        completeEncounter enc updatedBy now,
        [Event.encounterUpdated enc.id EncounterStatus.completed updatedBy]) := by
  rw [UpdateEncounter, hfind]
  rfl

theorem updateEncounter_other_eq (db : DB) (id updatedBy : Nat)
    (status : EncounterStatus) (now : Int) (enc : Encounter)
    (hfind : db.encounters.find? (fun e => e.id == id) = some enc)
    (hne : (status == EncounterStatus.completed) = false) :
    UpdateEncounter db id status updatedBy now =
      .ok ({ db with encounters :=
          saveEncounter db.encounters (restatusEncounter enc status updatedBy) },
        restatusEncounter enc status updatedBy,
        [Event.encounterUpdated enc.id status updatedBy]) := by
  rw [UpdateEncounter, hfind]
  simp only [hne, Bool.false_eq_true, if_false]
  rfl

/-- C7 counterexample: the encounter admitted at minute 1000 and completed
at minute 500 (a future-dated admission completed early) ends with
status=Completed but discharge time 500 strictly below its admission time,
so "discharge time greater than or equal to admission time" fails as
stated. -/
theorem C7_discharge_below_admission :
    updatedEncounterOf
        (UpdateEncounter dbEncFuture 5 EncounterStatus.completed 99 500) =
      some (completeEncounter encFuture 99 500)
    ∧ (completeEncounter encFuture 99 500).status = EncounterStatus.completed
    ∧ (completeEncounter encFuture 99 500).dischargeDate = some 500
    ∧ (completeEncounter encFuture 99 500).admissionDate = 1000
    ∧ ¬((1000 : Int) ≤ 500) := by
  decide

/-- C7 (amended): updating an existing encounter's status to Completed sets
the status to Completed and the discharge time to the completion clock
reading `now`; the discharge time is greater than or equal to the admission
time whenever the admission time is not after the completion time; and
re-invoking with Completed again simply refreshes the discharge timestamp
to the new clock reading. -/
theorem C7_complete_sets_discharge (db : DB) (id updatedBy : Nat)
    (now now2 : Int) (enc : Encounter)
    (hfind : db.encounters.find? (fun e => e.id == id) = some enc)
    (hadm : enc.admissionDate ≤ now) :
    ∃ db2 enc2 evs,
      UpdateEncounter db id EncounterStatus.completed updatedBy now =
        .ok (db2, enc2, evs)
      ∧ enc2.status = EncounterStatus.completed
      ∧ enc2.dischargeDate = some now
      ∧ enc2.admissionDate ≤ now
      ∧ ∃ db3 enc3 evs2,
          UpdateEncounter db2 id EncounterStatus.completed updatedBy now2 =
            .ok (db3, enc3, evs2)
          ∧ enc3.status = EncounterStatus.completed
          ∧ enc3.dischargeDate = some now2 := by
  have hfind2 : (saveEncounter db.encounters
      (completeEncounter enc updatedBy now)).find?
      (fun e => e.id == id) = some (completeEncounter enc updatedBy now) :=
    find?_saveEncounter id _ db.encounters enc hfind rfl
  exact ⟨_, _, _, updateEncounter_completed_eq db id updatedBy now enc hfind,
    rfl, rfl, hadm,
    _, _, _, updateEncounter_completed_eq _ id updatedBy now2 _ hfind2,
    rfl, rfl⟩

/-- Witness for C7 (amended): the encounter admitted at minute 1000,
completed at minute 1200 and completed again at minute 1300. -/
theorem C7_complete_sets_discharge_witness :
    dbEncFuture.encounters.find? (fun e => e.id == 5) = some encFuture
    ∧ encFuture.admissionDate ≤ 1200
    ∧ (∃ db2 enc2 evs,
        UpdateEncounter dbEncFuture 5 EncounterStatus.completed 99 1200 =
          .ok (db2, enc2, evs)
        ∧ enc2.status = EncounterStatus.completed
        ∧ enc2.dischargeDate = some 1200
        ∧ enc2.admissionDate ≤ 1200
        ∧ ∃ db3 enc3 evs2,
            UpdateEncounter db2 5 EncounterStatus.completed 99 1300 =
              .ok (db3, enc3, evs2)
            ∧ enc3.status = EncounterStatus.completed
            ∧ enc3.dischargeDate = some 1300) :=
  ⟨by decide, by decide,
   C7_complete_sets_discharge dbEncFuture 5 99 1200 1300 encFuture
     (by decide) (by decide)⟩

/-- C10: updating an encounter to any status other than Completed leaves the
discharge time field unchanged; in particular a previously set discharge
time is never cleared, so moving a Completed encounter back to Scheduled or
InProgress keeps its discharge time set. -/
theorem C10_non_completed_preserves_discharge (db : DB) (id updatedBy : Nat)
    (status : EncounterStatus) (now : Int) (enc : Encounter)
    (hfind : db.encounters.find? (fun e => e.id == id) = some enc)
    (hst : status ≠ EncounterStatus.completed) :
    ∃ db2 enc2 evs,
      UpdateEncounter db id status updatedBy now = .ok (db2, enc2, evs)
      ∧ enc2.status = status
      ∧ enc2.dischargeDate = enc.dischargeDate
      ∧ (∀ d : Int, enc.dischargeDate = some d → enc2.dischargeDate = some d) := by
  have hne : (status == EncounterStatus.completed) = false := by
    simpa using hst
  exact ⟨_, _, _,
    updateEncounter_other_eq db id updatedBy status now enc hfind hne,
    rfl, rfl, fun d hd => hd⟩

/-- Witness for C10: the Completed encounter with discharge time 200 moved
back to Scheduled keeps its discharge time 200. -/
theorem C10_non_completed_preserves_discharge_witness :
    dbEncDone.encounters.find? (fun e => e.id == 5) = some encDone
    ∧ EncounterStatus.scheduled ≠ EncounterStatus.completed
    ∧ (∃ db2 enc2 evs,
        UpdateEncounter dbEncDone 5 EncounterStatus.scheduled 99 999 =
          .ok (db2, enc2, evs)
        ∧ enc2.status = EncounterStatus.scheduled
        ∧ enc2.dischargeDate = encDone.dischargeDate
        ∧ (∀ d : Int, encDone.dischargeDate = some d →
            enc2.dischargeDate = some d)) :=
  ⟨by decide, by decide,
   C10_non_completed_preserves_discharge dbEncDone 5 99
     EncounterStatus.scheduled 999 encDone (by decide) (by decide)⟩

end EMR
